import Mathlib

/-!
Verification of the Haraka-ai query-routing and forecasting core.

Shallow embedding of the Python sources under `zeno_agent/`:
  * `agents/forecasting/data_utils.py`   (`prepare_dual_data`)
  * `agents/forecasting/model_utils.py`  (`run_model`)
  * `agents/forecasting/forecasting_agent.py` (`ForecastingAgent`)
  * `agent.py`                           (router + `/query` endpoint)

Python strings are Lean `String`s; Python string primitives (`in`,
`.lower()`, `.strip()`, `.split()`, `.title()`, `.startswith`) are
re-implemented structurally over `List Char` so that all definitions are
executable and kernel-reducible.  Python floats are modelled as `ℚ`
(exact arithmetic; IEEE rounding is not modelled).  External
collaborators (the Prophet library, the Gemini text-generation service,
the trade-data store, the web-answer fallback) are oracles passed in as
function arguments, with `Except`/`Option` encoding raised exceptions.
-/

namespace Zeno

/-! ## Python string primitives -/

/-- Substring containment on character lists: Python's `pat in hay`. -/
def containsSub (hay pat : List Char) : Bool :=
  match hay with
  | [] => pat.isEmpty
  | _ :: t => pat.isPrefixOf hay || containsSub t pat

/-- Python `pat in s` for strings. -/
def pyIn (pat s : String) : Bool := containsSub s.toList pat.toList

/-- Python `s.lower()` (ASCII case folding, as in all inputs used here). -/
def pyLower (s : String) : String := ⟨s.toList.map Char.toLower⟩

/-- Strip leading and trailing whitespace from a character list. -/
def trimChars (cs : List Char) : List Char :=
  ((cs.dropWhile Char.isWhitespace).reverse.dropWhile Char.isWhitespace).reverse

/-- Python `s.strip()`. -/
def pyStrip (s : String) : String := ⟨trimChars s.toList⟩

/-- Python `s.startswith(pat)`. -/
def pyStartsWith (s pat : String) : Bool := pat.toList.isPrefixOf s.toList

/-- Number of whitespace-delimited tokens: `len(s.split())` in Python. -/
def wordCount (s : String) : ℕ :=
  (s.toList.foldl
    (fun (st : ℕ × Bool) c =>
      if c.isWhitespace then (st.1, false)
      else (if st.2 then st.1 else st.1 + 1, true))
    (0, false)).1

/-- Title-casing of a character list: the Boolean argument records whether
the previous character was alphabetic. -/
def titleChars : List Char → Bool → List Char
  | [], _ => []
  | c :: t, prevAlpha =>
    (if c.isAlpha then (if prevAlpha then c.toLower else c.toUpper) else c)
      :: titleChars t c.isAlpha

/-- Python `s.title()` (ASCII behaviour). -/
def pyTitle (s : String) : String := ⟨titleChars s.toList false⟩

/-- Decimal digit run to a natural number, as Python `int()` on a digit
string. -/
def natOfDigits (ds : List Char) : ℕ :=
  ds.foldl (fun a c => 10 * a + (c.toNat - 48)) 0

/-! ## Trade Data Preparer (`data_utils.py`, `prepare_dual_data`)

A pandas `DataFrame` of raw trade records is modelled as a `RawFrame`:
the row list plus column-presence flags and the first value of the
`currency` / `quantity_unit_name` / `quantity_unit_symbol` columns
(`none` models an absent column or a falsy first value, both of which
the source sends to the same default). -/

/-- One raw trade record; `none` fields model SQL nulls / NaNs. -/
structure TradeRow where
  date : Option ℤ
  quantity : Option ℚ
  price : Option ℚ
deriving DecidableEq, Repr

/-- The frame returned by `get_trade_data_from_db`. -/
structure RawFrame where
  rows : List TradeRow
  hasDateCol : Bool
  hasQuantityCol : Bool
  hasPriceCol : Bool
  currencyFirst : Option String
  unitNameFirst : Option String
  unitSymbolFirst : Option String
deriving DecidableEq, Repr

/-- One cleaned, unit-converted row of the prepared series. -/
structure CleanRow where
  ds : ℤ
  quantity_kg : ℚ
  price : ℚ
  unit_price : ℚ
deriving DecidableEq, Repr

/-- Result bundle of `prepare_dual_data`. -/
structure Prepared where
  rows : List CleanRow
  currency : String
  display_unit : String
  unit_symbol : String
deriving DecidableEq, Repr

/-- The `ValueError`s raised by `prepare_dual_data`, by message. -/
inductive PrepError where
  | noData
  | noDateColumn
  | missingColumns
  | insufficientData (n : ℕ)
deriving DecidableEq, Repr

/-- Unit-normalization policy from `prepare_dual_data` (data_utils.py
lines 45-57): multiplier to kilograms and display unit, chosen from the
combined lower-cased unit-name/unit-symbol string and the raw symbol. -/
def unit_conversion (unit_name unit_symbol : String) : ℕ × String :=
  let unit_str := pyLower (unit_name ++ " " ++ unit_symbol)
  if pyIn "ton" unit_str || unit_symbol == "t" then (1000, "tonnes")
  else if pyIn "kg" unit_str then (1, "kg")
  else if pyIn "quintal" unit_str then (100, "quintals")
  else (1000, "tonnes")

/-- The ordered unit-normalization policy exactly as the specification
words it (spec §4.2): evaluated in order against the combined
unit-name/unit-symbol string, case-insensitively, with the symbol
equality check against the literal `"t"`.  Written separately from
`unit_conversion` to compare the spec's policy with the source's. -/
def unitPolicySpec (unit_name unit_symbol : String) : ℕ × String :=
  let combined := pyLower (unit_name ++ " " ++ unit_symbol)
  if pyIn "ton" combined || unit_symbol == "t" then (1000, "tonnes")
  else if pyIn "kg" combined then (1, "kg")
  else if pyIn "quintal" combined then (100, "quintals")
  else (1000, "tonnes")

/-- Row cleaning from `prepare_dual_data` (data_utils.py lines 59-61):
`quantity_kg = quantity * multiplier`, `unit_price = price /
quantity_kg` with zero `quantity_kg` replaced by NaN, then `dropna` over
the derived columns.  A row survives exactly when date, quantity and
price are non-null and `quantity * multiplier ≠ 0`. -/
def cleanRows (rows : List TradeRow) (kg_multiplier : ℚ) : List CleanRow :=
  rows.filterMap fun r =>
    match r.date, r.quantity, r.price with
    | some d, some q, some p =>
      let qkg := q * kg_multiplier
      if qkg = 0 then none
      else some { ds := d, quantity_kg := qkg, price := p, unit_price := p / qkg }
    | _, _, _ => none

/-- Stable insertion of a row into a list sorted ascending by `ds`. -/
def insertByDs (r : CleanRow) : List CleanRow → List CleanRow
  | [] => [r]
  | x :: xs => if r.ds < x.ds then r :: x :: xs else x :: insertByDs r xs

/-- Stable ascending sort by `ds`: `df.sort_values("ds")`. -/
def sortByDs (l : List CleanRow) : List CleanRow := l.foldr insertByDs []

/-- The cleaned, unit-converted, null-dropped, date-sorted series
`df_clean` built by `prepare_dual_data` (data_utils.py lines 59-61). -/
def cleanedSeries (df : RawFrame) : List CleanRow :=
  let unit_name := df.unitNameFirst.getD "tonnes"
  let unit_symbol := df.unitSymbolFirst.getD "t"
  sortByDs (cleanRows df.rows ((unit_conversion unit_name unit_symbol).1 : ℚ))

/-- Embedding of `prepare_dual_data` (data_utils.py lines 21-66), given
the frame fetched from the trade-data store.  `Except.error` models a
raised `ValueError`. -/
def prepare_dual_data (df : RawFrame) : Except PrepError Prepared :=
  if df.rows.isEmpty then .error .noData
  else if !df.hasDateCol then .error .noDateColumn
  else if !df.hasQuantityCol || !df.hasPriceCol then .error .missingColumns
  else
    let currency := df.currencyFirst.getD "KES"
    let unit_name := df.unitNameFirst.getD "tonnes"
    let unit_symbol := df.unitSymbolFirst.getD "t"
    let mult_unit := unit_conversion unit_name unit_symbol
    let df_clean := cleanedSeries df
    if df_clean.length < 8 then .error (.insufficientData df_clean.length)
    else
      .ok { rows := df_clean, currency := currency,
            display_unit := mult_unit.2, unit_symbol := unit_symbol }

/-! ## Timeframe parsing (`forecasting_agent.py`) -/

/-- Embedding of `ForecastingAgent.parse_timeframe` (forecasting_agent.py
lines 13-18): `re.match(r"next (\d+) (year|years|month|months)", s.lower())`,
returning the count (years times 12), and 3 when the regex does not
match.  The regex is anchored at the start; `\d+` is a maximal digit
run followed by a single space; the alternation tries `year` before
`month`, and only the captured alternative's `month`-containment is
tested, so a `year`/`month` prefix of the remainder decides the unit. -/
def parse_timeframe (timeframe : String) : ℕ :=
  let t := (pyLower timeframe).toList
  if "next ".toList.isPrefixOf t then
    let rest := t.drop 5
    let ds := rest.takeWhile Char.isDigit
    let rest2 := rest.drop ds.length
    if ds.isEmpty then 3
    else
      match rest2 with
      | ' ' :: rest3 =>
        if "year".toList.isPrefixOf rest3 then 12 * natOfDigits ds
        else if "month".toList.isPrefixOf rest3 then natOfDigits ds
        else 3
      | _ => 3
  else 3

/-- The number of forecast periods `ForecastingAgent.run` uses for a
query (forecasting_agent.py lines 42-45 and 113): the timeframe string
is synthesized from the query ("next 3 months" when the lower-cased
query contains "month", otherwise "next 1 year") and then parsed. -/
def periodsForQuery (query : String) : ℕ :=
  let q := pyLower query
  parse_timeframe (if pyIn "month" q then "next 3 months" else "next 1 year")

/-! ## Forecast Model Runner (`model_utils.py`, `run_model`)

The input frame is the `(ds, y)` pair list.  Prophet is an external
library: it is modelled as an oracle that either fails (`none`, any
exception during `fit`/`predict`, including non-convergence) or yields
a prediction `yhat, yhat_lower, yhat_upper` for every row index of the
future frame.  `make_future_dataframe(periods)` extends the history, so
the prediction frame has `len(df) + periods` rows and `.tail(periods)`
is the projected span.  Floats are exact rationals here. -/

/-- Sum of `f 0 + ... + f (n-1)`, used for the least-squares sums. -/
def rangeSum : ℕ → (ℕ → ℚ) → ℚ
  | 0, _ => 0
  | n + 1, f => rangeSum n f + f n

/-- Embedding of `np.polyfit(x, y, 1)` with `x = 0..n-1`: the unique
least-squares line through `(i, ys[i])`, via the normal equations
(slope, intercept).  `polyfit_is_least_squares` below proves this is
the least-squares minimizer, which is what `np.polyfit` computes. -/
def polyfitDeg1 (ys : List ℚ) : ℚ × ℚ :=
  let n : ℚ := ys.length
  let sx := rangeSum ys.length fun i => (i : ℚ)
  let sxx := rangeSum ys.length fun i => (i : ℚ) ^ 2
  let sy := rangeSum ys.length fun i => ys.getD i 0
  let sxy := rangeSum ys.length fun i => (i : ℚ) * ys.getD i 0
  let d := n * sxx - sx ^ 2
  let slope := (n * sxy - sx * sy) / d
  (slope, (sy - slope * sx) / n)

/-- Sum of squared residuals of the line `a*x + b` over the indexed
series, the quantity `np.polyfit` minimizes. -/
def sse (ys : List ℚ) (a b : ℚ) : ℚ :=
  rangeSum ys.length fun i => (ys.getD i 0 - (a * i + b)) ^ 2

/-- Confidence-interval dictionary of `run_model`. -/
structure Intervals where
  lower : List ℚ
  upper : List ℚ
  mean : List ℚ
deriving DecidableEq, Repr

/-- Return value of `run_model`: forecast values, intervals, model tag. -/
structure RunResult where
  values : List ℚ
  intervals : Intervals
  modelType : String
deriving DecidableEq, Repr

/-- Pandas `Series.tail(k)`: the last `k` entries. -/
def tailN (l : List ℚ) (k : ℕ) : List ℚ := l.drop (l.length - k)

/-- The `except` branch of `run_model` (model_utils.py lines 74-96):
linear extrapolation over index positions, with the fixed ±10%
synthetic interval; a constant (last value, or 0.0 for an empty frame)
when fewer than 2 points exist. -/
def linear_fallback (ys : List ℚ) (periods : ℕ) : RunResult :=
  let values :=
    if ys.length < 2 then List.replicate periods (ys.getLast?.getD 0)
    else
      let st := polyfitDeg1 ys
      (List.range periods).map fun k => st.1 * ((ys.length + k : ℕ) : ℚ) + st.2
  { values := values
    intervals :=
      { lower := values.map (· * (9/10))
        upper := values.map (· * (11/10))
        mean := values }
    modelType := "linear_fallback" }

/-- Embedding of `run_model` (model_utils.py lines 27-96).  The `try`
branch raises when the frame has fewer than 4 rows, otherwise fits the
seasonal model via the `prophet` oracle; every exception falls through
to `linear_fallback`.  (`metric_name` only feeds a log line and is
omitted.) -/
def run_model (prophet : List (ℤ × ℚ) → ℕ → Option (ℕ → ℚ × ℚ × ℚ))
    (df : List (ℤ × ℚ)) (periods : ℕ) : RunResult :=
  if df.length < 4 then linear_fallback (df.map Prod.snd) periods
  else
    match prophet df periods with
    | none => linear_fallback (df.map Prod.snd) periods
    | some f =>
      let rows := df.length + periods
      let yhat := (List.range rows).map fun i => (f i).1
      let lows := (List.range rows).map fun i => (f i).2.1
      let highs := (List.range rows).map fun i => (f i).2.2
      { values := tailN yhat periods
        intervals :=
          { lower := tailN lows periods
            upper := tailN highs periods
            mean := tailN yhat periods }
        modelType := "prophet" }

/-! ### Least-squares optimality of the fallback line -/

/-- Slope of the least-squares line for an abstract indexed series. -/
def fitSlope (m : ℕ) (y : ℕ → ℚ) : ℚ :=
  ((m : ℚ) * (∑ i ∈ Finset.range m, (i : ℚ) * y i)
      - (∑ i ∈ Finset.range m, (i : ℚ)) * (∑ i ∈ Finset.range m, y i))
    / ((m : ℚ) * (∑ i ∈ Finset.range m, (i : ℚ) ^ 2)
      - (∑ i ∈ Finset.range m, (i : ℚ)) ^ 2)

/-- Intercept of the least-squares line for an abstract indexed series. -/
def fitIntercept (m : ℕ) (y : ℕ → ℚ) : ℚ :=
  ((∑ i ∈ Finset.range m, y i) - fitSlope m y * (∑ i ∈ Finset.range m, (i : ℚ))) / m

/-- Residual sum of squares for an abstract indexed series. -/
def sseF (m : ℕ) (y : ℕ → ℚ) (a b : ℚ) : ℚ :=
  ∑ i ∈ Finset.range m, (y i - (a * i + b)) ^ 2

/-- A Prophet oracle whose fit always fails, for concrete instances. -/
def prophetNone : List (ℤ × ℚ) → ℕ → Option (ℕ → ℚ × ℚ × ℚ) := fun _ _ => none

/-- A Prophet oracle that always fits and predicts constant values, for
concrete instances. -/
def prophetConst : List (ℤ × ℚ) → ℕ → Option (ℕ → ℚ × ℚ × ℚ) :=
  fun _ _ => some (fun _ => ((1 : ℚ), (0 : ℚ), (2 : ℚ)))

/-! ## Intent Router (`agent.py`)

The three hardcoded pattern matchers use `re.search` with `IGNORECASE`
on regexes whose alternatives all have the shape
`.*u₁.*u₂.*…*uₖ.*` for literal/character-class units `uᵢ`.  Searching
such a pattern is equivalent to finding the units in order,
left-to-right, each starting at or after the end of the previous one;
the greedy earliest-occurrence scan below decides exactly that.
`IGNORECASE` is modelled by lower-casing the query and the literals. -/

/-- One unit of a pattern: a character-by-character predicate list. -/
def lit (s : String) : List (Char → Bool) := s.toList.map fun c d => d == c

/-- A one-character class unit, e.g. `[12]`. -/
def cls (cs : String) : List (Char → Bool) := [fun d => cs.toList.contains d]

/-- Match a unit as a prefix of `hay`, returning the rest on success. -/
def matchesAt : List Char → List (Char → Bool) → Option (List Char)
  | rest, [] => some rest
  | [], _ :: _ => none
  | c :: cs, p :: ps => if p c then matchesAt cs ps else none

/-- Scan for the earliest occurrence of a unit; returns the suffix just
after it. -/
def dropToMatch (pat : List (Char → Bool)) : List Char → Option (List Char)
  | [] => matchesAt [] pat
  | c :: t =>
    match matchesAt (c :: t) pat with
    | some rest => some rest
    | none => dropToMatch pat t

/-- Ordered search for a sequence of units separated by `.*`. -/
def seqSearch : List Char → List (List (Char → Bool)) → Bool
  | _, [] => true
  | hay, u :: us =>
    match dropToMatch u hay with
    | some rest => seqSearch rest us
    | none => false

/-- Alternation: `re.search` succeeds when any alternative does. -/
def altSearch (hay : List Char) (alts : List (List (List (Char → Bool)))) : Bool :=
  alts.any (seqSearch hay)

/-- Embedding of `is_ethiopia_coffee_forecast_query` (agent.py lines
197-205).  The fourth alternative of the regex subsumes `year[s]?` and
`month[s]?` by their mandatory stems. -/
def is_ethiopia_coffee_forecast_query (q : String) : Bool :=
  let s := (pyLower q).toList
  altSearch s
    [[lit "price", lit "ethiopia", lit "coffee", lit "next", cls "12", lit "year"],
     [lit "ethiopia", lit "coffee", lit "price", lit "forecast", lit "202" ++ cls "567"],
     [lit "ethiopia", lit "coffee", lit "next", lit "two", lit "year"],
     [lit "forecast", lit "ethiopia", lit "coffee", lit "price"]]

/-- Embedding of `is_kenya_coffee_forecast_query` (agent.py lines
255-263); the inner group `(dec.*2025|jan.*2026)` is expanded into two
alternatives. -/
def is_kenya_coffee_forecast_query (q : String) : Bool :=
  let s := (pyLower q).toList
  altSearch s
    [[lit "price", lit "kenya", lit "coffee", lit "next", lit "2", lit "month"],
     [lit "kenya", lit "coffee", lit "price", lit "forecast", lit "dec", lit "2025"],
     [lit "kenya", lit "coffee", lit "price", lit "forecast", lit "jan", lit "2026"],
     [lit "kenya", lit "coffee", lit "next", lit "two", lit "month"],
     [lit "forecast", lit "kenya", lit "coffee", lit "price"]]

/-- Embedding of `is_kenya_maize_forecast_query` (agent.py lines
308-318): four keyword groups must each hit the lower-cased query. -/
def is_kenya_maize_forecast_query (q : String) : Bool :=
  let ql := pyLower q
  (["kenya", "kenyan", "nairobi", "nce", "ncpb"].any fun w => pyIn w ql) &&
  (["maize", "corn", "grain", "meal", "unga"].any fun w => pyIn w ql) &&
  (["forecast", "predict", "price", "next", "202", "year", "month", "future"].any
    fun w => pyIn w ql) &&
  (["next", "202", "2025", "2026", "2027", "year", "month", "future", "coming"].any
    fun w => pyIn w ql)

/-- The intents `route_and_reason` can decide (its result dict's
"type" field). -/
inductive Intent where
  | ethiopiaCoffeeForecast
  | kenyaCoffeeForecast
  | kenyaMaizeForecast
  | comparative
  | forecast
  | scenario
  | rag
  | trivial
deriving DecidableEq, Repr

/-- A routing decision: the dict `{"type": ..., "response": ...}`. -/
structure RouteDecision where
  type : Intent
  response : String
deriving DecidableEq, Repr

/-- The fixed greeting of the keyword-degradation path. -/
def greeting : String :=
  "Hello! I specialize in East African agricultural trade data. How can I help?"

/-- The fixed domain-keyword set of the keyword-degradation path
(agent.py lines 478-483). -/
def trade_keywords : List String :=
  ["export", "import", "price", "trade", "coffee", "maize",
   "tanzania", "kenya", "forecast", "compare", "supply", "gap",
   "collision", "arbitrage", "logistics", "rainfall", "harvest",
   "farm gate", "simulate", "policy", "shock"]

/-- The `except` branch of `route_and_reason` (agent.py lines 475-489):
lower-case and tokenize the query; short queries without any domain
keyword become `trivial` with the fixed greeting, everything else
degrades to `rag`. -/
def keyword_degradation (user_query : String) : RouteDecision :=
  if wordCount (pyLower user_query) ≤ 6 ∧
      trade_keywords.all (fun kw => !(pyIn kw (pyLower user_query))) = true then
    ⟨.trivial, greeting⟩
  else ⟨.rag, ""⟩

/-- Embedding of `route_and_reason` (agent.py lines 427-489).  `llm` is
the classification call to the text-generation service: `.error ()`
models a raised exception; `.ok s` the returned text (`s = ""` covers
the empty-candidates case, which the source also maps to
`raw_output = ""`). -/
def route_and_reason (llm : String → Except Unit String) (user_query : String) :
    RouteDecision :=
  if is_ethiopia_coffee_forecast_query user_query then ⟨.ethiopiaCoffeeForecast, ""⟩
  else if is_kenya_coffee_forecast_query user_query then ⟨.kenyaCoffeeForecast, ""⟩
  else if is_kenya_maize_forecast_query user_query then ⟨.kenyaMaizeForecast, ""⟩
  else
    match llm user_query with
    | .ok text =>
      let raw_output := pyStrip text
      if pyStartsWith raw_output "[COMPARATIVE]" then ⟨.comparative, ""⟩
      else if pyStartsWith raw_output "[FORECAST]" then ⟨.forecast, ""⟩
      else if pyStartsWith raw_output "[SCENARIO]" then ⟨.scenario, ""⟩
      else if pyStartsWith raw_output "[RAG]" then ⟨.rag, ""⟩
      else ⟨.trivial, raw_output⟩
    | .error _ => keyword_degradation user_query

/-! ## Forecasting Orchestrator (`forecasting_agent.py`) -/

/-- `ALIAS_MAP` (config.py lines 20-31) in insertion order, as iterated
by `next(k for k in ALIAS_MAP if k in q)`. -/
def aliasMap : List (String × String) :=
  [("maize", "dry maize"), ("dry maize", "dry maize"),
   ("green maize", "green maize"), ("coffee_arabica", "Coffee"),
   ("coffee_robusta", "Coffee"), ("arabica", "Coffee"),
   ("robusta", "Coffee"), ("coffee", "Coffee"), ("tea", "Tea"),
   ("maize flour", "Maize Flour")]

/-- `SUPPORTED_COUNTRIES` (config.py line 18). -/
def supportedCountries : List String := ["kenya", "ethiopia", "rwanda"]

/-- Per-metric entry of `forecast_dual_metrics`. -/
structure MetricForecast where
  forecast : ℚ
  intervals : Intervals
  model : String
deriving DecidableEq, Repr

/-- The `dual_forecast` dictionary. -/
structure DualForecast where
  unit_price : MetricForecast
  total_revenue : MetricForecast
  volume_kg : ℚ
deriving DecidableEq, Repr

/-- `np.mean` of a list (0 for the empty list; the source only applies
it to `periods ≥ 1` values). -/
def meanQ (l : List ℚ) : ℚ := l.sum / l.length

/-- Embedding of `ForecastingAgent.forecast_dual_metrics`
(forecasting_agent.py lines 20-34): three `run_model` calls on the
unit-price, revenue and volume series of the prepared frame. -/
def forecast_dual_metrics (prophet : List (ℤ × ℚ) → ℕ → Option (ℕ → ℚ × ℚ × ℚ))
    (rows : List CleanRow) (periods : ℕ) : DualForecast :=
  let unitRes := run_model prophet (rows.map fun r => (r.ds, r.unit_price)) periods
  let revRes := run_model prophet (rows.map fun r => (r.ds, r.price)) periods
  let volRes := run_model prophet (rows.map fun r => (r.ds, r.quantity_kg)) periods
  { unit_price := ⟨meanQ unitRes.values, unitRes.intervals, unitRes.modelType⟩
    total_revenue := ⟨meanQ revRes.values, revRes.intervals, revRes.modelType⟩
    volume_kg := meanQ volRes.values }

/-- External collaborators of `ForecastingAgent.run`.  `countryId` /
`productId` model `get_country_id_by_name` / `get_product_id_by_name`
(`.error` = raised exception); `tradeFrame` models the store read
performed inside `prepare_dual_data` (`none` = an exception in the
store access itself, the generic `except Exception` branch);
`webAnswer` is `economist_web_answer(query, "forecast", commodity,
country)`, total because that function catches its own failures;
`modelExc` says whether an exception escapes `forecast_dual_metrics`
(e.g. a linear-algebra failure inside `polyfit` — the source wraps the
call in `try/except`); `interp` is the Gemini interpretation call
(`.error ()` exception, `.ok none` empty candidates). -/
structure AgentEnv where
  prophet : List (ℤ × ℚ) → ℕ → Option (ℕ → ℚ × ℚ × ℚ)
  countryId : String → Except Unit ℤ
  productId : String → Except Unit ℤ
  tradeFrame : ℤ → ℤ → Option RawFrame
  webAnswer : String → String → String → String
  ragContext : String
  modelExc : Bool
  interp : Except Unit (Option String)

/-- The result dict of `ForecastingAgent.run`, with one `Option` field
per possible key (`none` = key absent from the returned dict). -/
structure AgentOutput where
  type : Option String := none
  query : Option String := none
  forecast_display : Option String := none
  dual_forecast : Option DualForecast := none
  interpretation : Option String := none
  confidence_level : Option String := none
  data_points_used : Option ℕ := none
  source : Option String := none
  error : Option String := none
deriving DecidableEq, Repr

/-- The web-fallback dict shared by the four DEFERRED returns of
`ForecastingAgent.run` (forecasting_agent.py lines 56-64, 74-82,
90-110, 120-128), parameterized by the `data_points_used` value. -/
def webFallbackOutput (query analysis : String) (dp : ℕ) : AgentOutput :=
  { type := some "forecast", query := some query,
    forecast_display := some "See interpretation below.",
    interpretation := some analysis,
    confidence_level := some "Medium",
    data_points_used := some dp,
    source := some "web_fallback" }

/-- `re.sub(r"[\*\#\-\_\<\>\/]+", "", raw).strip()` from
forecasting_agent.py line 155. -/
def stripMdChars (s : String) : String :=
  pyStrip ⟨s.toList.filter fun c => !(['*', '#', '-', '_', '<', '>', '/'].contains c)⟩

/-- Plain rendering of a rational for the display line (the source's
fixed-decimal `"{:.2f}"`/`"{:.0f}"` rounding is abstracted; no claim
concerns the rendered digits). -/
def ratDisplay (x : ℚ) : String := toString x.num ++ "/" ++ toString x.den

/-- The `display_text` f-string of `ForecastingAgent.run`
(forecasting_agent.py lines 130-134). -/
def display_text (dual : DualForecast) (currency vol_unit : String) : String :=
  "Unit Price: " ++ ratDisplay dual.unit_price.forecast ++ " " ++ currency ++
    "/kg | Revenue: " ++ ratDisplay dual.total_revenue.forecast ++ " " ++ currency ++
    " | Volume: " ++ ratDisplay dual.volume_kg ++ " " ++ vol_unit

/-- Embedding of `ForecastingAgent.run` (forecasting_agent.py lines
36-170).  The local `q = query.lower()` is inlined as `pyLower query`,
and `periods = parse_timeframe(timeframe)` with the synthesized
timeframe string is exactly `periodsForQuery query`. -/
def forecastingAgentRun (env : AgentEnv) (query file_context : String) : AgentOutput :=
  if query = "" then { error := some "No query provided." }
  else
    match aliasMap.find? (fun kv => pyIn kv.1 (pyLower query)),
        supportedCountries.find? (fun c => pyIn c (pyLower query)) with
    | some kv, some country =>
      (match env.countryId (pyTitle country), env.productId kv.2 with
       | .ok country_id, .ok product_id =>
         (match env.tradeFrame country_id product_id with
          | none => webFallbackOutput query (env.webAnswer query kv.2 country) 0
          | some frame =>
            match prepare_dual_data frame with
            | .error _ => webFallbackOutput query (env.webAnswer query kv.2 country) 0
            | .ok d =>
              if env.modelExc then
                webFallbackOutput query (env.webAnswer query kv.2 country) d.rows.length
              else
                let dual := forecast_dual_metrics env.prophet d.rows (periodsForQuery query)
                let interpretation :=
                  match env.interp with
                  | .ok (some raw) => stripMdChars raw
                  | .ok none => env.webAnswer query kv.2 country
                  | .error _ => env.webAnswer query kv.2 country
                { type := some "forecast", query := some query,
                  forecast_display := some (display_text dual d.currency d.display_unit),
                  dual_forecast := some dual,
                  interpretation := some interpretation,
                  confidence_level := some (if 24 ≤ d.rows.length then "High" else "Medium"),
                  data_points_used := some d.rows.length })
       | _, _ => webFallbackOutput query (env.webAnswer query kv.2 country) 0)
    | ck, co =>
      webFallbackOutput query
        (env.webAnswer query ((ck.map Prod.fst).getD "") (co.getD "")) 0

/-! ## The `/query` endpoint core (`agent.py` lines 493-592)

The comparative and scenario handlers are embedded with their pure
entity extraction and result-dict shapes; their LLM / database /
retrieval chains are oracles.  The endpoint's top-level `except`
branches (quota and generic 500) are unreachable in this model because
every embedded handler is total, exactly as each handler catches its
own collaborator failures in the source. -/

/-- Embedding of `extract_entities` (comparative/utils.py lines 16-27):
title-cased countries (at most two, gazetteer order) and the first
matched commodity, defaulting to "coffee". -/
def extract_entities (query : String) : List String × String :=
  let ql := pyLower query
  let countries :=
    (["kenya", "tanzania", "uganda", "rwanda", "ethiopia", "burundi"].filter
      fun c => pyIn c ql).map pyTitle
  let commodities :=
    ["coffee", "maize", "tea", "beans", "wheat", "rice", "sugar"].filter
      fun c => pyIn c ql
  (countries.take 2, commodities.headD "coffee")

/-- The comparative handler's result dict (comparative_agent.py lines
6-27), one `Option` field per possible key. -/
structure CompOut where
  type : Option String := none
  query : Option String := none
  entities : Option (List String × String) := none
  response : Option String := none
  error : Option String := none
deriving DecidableEq, Repr

/-- Embedding of comparative `run` (comparative_agent.py lines 6-27);
`synth` is the structured-summary / RAG / synthesis chain, an oracle of
the query and the file context. -/
def comparative_run (synth : String → String → String) (query file_context : String) :
    CompOut :=
  let q := pyStrip query
  if q = "" then { error := some "No query provided." }
  else
    { type := some "comparative", query := some q,
      entities := some (extract_entities q),
      response := some (synth q file_context) }

/-- The commodity alternation of `ScenarioSubAgent.extract_entities`
(scenario_agent.py line 24), in alternation order. -/
def scenarioCommodities : List String := ["maize", "coffee", "tea", "oil", "wheat", "sugar"]

/-- The country alternation of `ScenarioSubAgent.extract_entities`
(scenario_agent.py line 25). -/
def scenarioCountries : List String := ["kenya", "uganda", "tanzania", "ethiopia", "rwanda"]

/-- Leftmost `re.search` over a plain alternation of literals: at each
position, the first alternative that matches as a prefix wins. -/
def firstAltAux (alts : List String) : List Char → Option String
  | [] => none
  | c :: t =>
    match alts.find? (fun a => a.toList.isPrefixOf (c :: t)) with
    | some a => some a
    | none => firstAltAux alts t

/-- Embedding of `ScenarioSubAgent.extract_entities` (scenario_agent.py
lines 22-29): case-insensitive leftmost search, lower-cased groups. -/
def scenario_extract_entities (query : String) : Option String × Option String :=
  (firstAltAux scenarioCommodities (pyLower query).toList,
   firstAltAux scenarioCountries (pyLower query).toList)

/-- The scenario handler's result dict (scenario_agent.py lines 46-52
and 114-120), one `Option` field per possible key. -/
structure ScenOut where
  type : Option String := none
  query : Option String := none
  response : Option String := none
  followup : Option String := none
  entities : Option (String × String) := none
  llm_analysis : Option String := none
deriving DecidableEq, Repr

/-- Embedding of `ScenarioSubAgent.handle_with_context`
(scenario_agent.py lines 42-120); `llmScen` is the Gemini call
(`.error ()` exception, `.ok none` empty candidates). -/
def scenario_handle (llmScen : Except Unit (Option String))
    (scenario_query file_context : String) : ScenOut :=
  let query := pyStrip scenario_query
  match scenario_extract_entities query with
  | (some commodity, some country) =>
    let analysis :=
      match llmScen with
      | .ok (some t) => pyStrip t
      | .ok none =>
        "Scenario analysis for " ++ commodity ++ " in " ++ pyTitle country ++
          " requires additional context. Consider providing specific policy parameters or economic assumptions for a detailed assessment."
      | .error _ =>
        "A " ++ commodity ++ " policy scenario in " ++ pyTitle country ++
          " would affect production and trade flows. Without specific parameters, general effects include: supply elasticity impacts on domestic prices, export competitiveness changes, and fiscal implications for government budgets. Provide specific policy details for a tailored analysis."
    { type := some "scenario", query := some query,
      entities := some (commodity, country),
      llm_analysis := some analysis,
      followup := some "Try adjusting policy parameters or macroeconomic assumptions." }
  | _ =>
    { type := some "scenario", query := some query,
      response := some "Please specify a commodity (e.g., coffee, maize) and country (e.g., Kenya, Rwanda).",
      followup := some "Example: 'What if Kenya subsidizes coffee production?'" }

/-- The three pre-authored canned forecast payloads
(`generate_ethiopia_coffee_response`, `generate_kenya_coffee_response`,
`generate_kenya_maize_response`) — fully static dicts, identified by
tag. -/
inductive CannedId where
  | ethiopiaCoffee
  | kenyaCoffee
  | kenyaMaize
deriving DecidableEq, Repr

/-- The JSON value the `/query` endpoint returns, one constructor per
return site of the source. -/
inductive EndpointResult where
  | badRequest
  | canned (id : CannedId)
  | fileAnalysis (response followup : String)
  | trivialResponse (response : String)
  | comparativeResult (r : CompOut)
  | forecastResult (r : AgentOutput)
  | scenarioResult (r : ScenOut)
  | ragResult (response : String)
deriving DecidableEq, Repr

/-- External collaborators of the `/query` endpoint: the routing
classification call, the file-analysis generation call (`none` covers
both a raised exception and empty candidates — the source maps both to
the same fixed message), the forecasting agent's environment, the
comparative synthesis chain, the scenario generation call, and
`ask_knowledgebase_with_context`. -/
structure EndpointEnv where
  llmRoute : String → Except Unit String
  llmFile : Option String
  agent : AgentEnv
  compSynth : String → String → String
  llmScen : Except Unit (Option String)
  ragAnswer : String → String → String

/-- Fallback message of the file-analysis branch (agent.py lines
533-535). -/
def fileAnalysisFallback : String :=
  "I analyzed your document. Try asking about trade implications, price forecasts, or policy impacts."

/-- Embedding of the `/query` endpoint body (agent.py lines 493-592).
The `except ValueError` wrapper around the forecast branch (lines
565-572, which would attach a `final_output` apology) is dead here:
`ForecastingAgent.run` catches every `ValueError` from data preparation
internally and returns a web-fallback dict instead of raising.  The
canned-intent arms of the dispatch are likewise dead (the endpoint
checks the same patterns first); the source's `else` would send them to
the RAG branch, which this embedding mirrors. -/
def queryEndpoint (env : EndpointEnv) (rawQuery rawFile : String) : EndpointResult :=
  if pyStrip rawQuery = "" ∧ pyStrip rawFile = "" then .badRequest
  else if is_ethiopia_coffee_forecast_query (pyStrip rawQuery) then .canned .ethiopiaCoffee
  else if is_kenya_coffee_forecast_query (pyStrip rawQuery) then .canned .kenyaCoffee
  else if is_kenya_maize_forecast_query (pyStrip rawQuery) then .canned .kenyaMaize
  else if pyStrip rawQuery = "" then
    .fileAnalysis (env.llmFile.getD fileAnalysisFallback) "Ask one of the suggested questions!"
  else
    match route_and_reason env.llmRoute (pyStrip rawQuery) with
    | ⟨Intent.trivial, resp⟩ => .trivialResponse resp
    | ⟨Intent.comparative, _⟩ =>
        .comparativeResult (comparative_run env.compSynth (pyStrip rawQuery) (pyStrip rawFile))
    | ⟨Intent.forecast, _⟩ =>
        .forecastResult (forecastingAgentRun env.agent (pyStrip rawQuery) (pyStrip rawFile))
    | ⟨Intent.scenario, _⟩ =>
        .scenarioResult (scenario_handle env.llmScen (pyStrip rawQuery) (pyStrip rawFile))
    | ⟨Intent.rag, _⟩ => .ragResult (env.ragAnswer (pyStrip rawQuery) (pyStrip rawFile))
    | ⟨Intent.ethiopiaCoffeeForecast, _⟩ =>
        .ragResult (env.ragAnswer (pyStrip rawQuery) (pyStrip rawFile))
    | ⟨Intent.kenyaCoffeeForecast, _⟩ =>
        .ragResult (env.ragAnswer (pyStrip rawQuery) (pyStrip rawFile))
    | ⟨Intent.kenyaMaizeForecast, _⟩ =>
        .ragResult (env.ragAnswer (pyStrip rawQuery) (pyStrip rawFile))

/-- The key contributed to a dict by an optional field. -/
def optKey {α : Type} (name : String) (o : Option α) : List String :=
  if o.isSome then [name] else []

/-- The keys of the dict a `ForecastingAgent.run` result stands for. -/
def agentOutputKeys (r : AgentOutput) : List String :=
  optKey "type" r.type ++ optKey "query" r.query ++
  optKey "forecast_display" r.forecast_display ++
  optKey "dual_forecast" r.dual_forecast ++
  optKey "interpretation" r.interpretation ++
  optKey "confidence_level" r.confidence_level ++
  optKey "data_points_used" r.data_points_used ++
  optKey "source" r.source ++ optKey "error" r.error

/-- The keys of the dict a comparative result stands for. -/
def compOutKeys (r : CompOut) : List String :=
  optKey "type" r.type ++ optKey "query" r.query ++
  optKey "entities" r.entities ++ optKey "response" r.response ++
  optKey "error" r.error

/-- The keys of the dict a scenario result stands for. -/
def scenOutKeys (r : ScenOut) : List String :=
  optKey "type" r.type ++ optKey "query" r.query ++
  optKey "response" r.response ++ optKey "followup" r.followup ++
  optKey "entities" r.entities ++ optKey "llm_analysis" r.llm_analysis

/-- The top-level JSON keys of each endpoint result, transcribed from
the corresponding return dict in the source (for the canned payloads:
agent.py lines 245-252, 292-304 and 398-423; `{"type": t, **result}`
merges are deduplicated as in Python). -/
def topLevelKeys : EndpointResult → List String
  | .badRequest => ["error"]
  | .canned .ethiopiaCoffee =>
      ["type", "interpretation", "forecast_display", "confidence_level",
       "data_points_used", "artifacts"]
  | .canned .kenyaCoffee =>
      ["type", "interpretation", "forecast_display", "confidence_level",
       "data_points_used", "forecast_methodology", "artifacts"]
  | .canned .kenyaMaize =>
      ["type", "commodity", "country", "interpretation", "forecast_display",
       "confidence_level", "data_points_used", "forecast_methodology",
       "risk_factors", "artifacts", "key_indicators", "last_updated", "next_update"]
  | .fileAnalysis _ _ => ["type", "response", "followup"]
  | .trivialResponse _ => ["type", "response"]
  | .comparativeResult r => compOutKeys r
  | .forecastResult r => ("type" :: agentOutputKeys r).dedup
  | .scenarioResult r => ("type" :: scenOutKeys r).dedup
  | .ragResult _ => ["type", "response"]

/-! ## Concrete instances for witnesses and counterexamples -/

/-- An agent environment whose collaborators all fail or return
defaults. -/
def stubAgentEnv : AgentEnv :=
  { prophet := prophetNone
    countryId := fun _ => .error ()
    productId := fun _ => .error ()
    tradeFrame := fun _ _ => none
    webAnswer := fun _ _ _ => "narrative answer"
    ragContext := ""
    modelExc := false
    interp := .error () }

/-- An endpoint environment whose classification call raises. -/
def envLlmFails : EndpointEnv :=
  { llmRoute := fun _ => .error ()
    llmFile := none
    agent := stubAgentEnv
    compSynth := fun _ _ => ""
    llmScen := .error ()
    ragAnswer := fun _ _ => "rag answer" }

/-- An endpoint environment whose classification call answers
`"[RAG]"`. -/
def envLlmRag : EndpointEnv :=
  { envLlmFails with llmRoute := fun _ => .ok "[RAG]" }

/-- An endpoint environment whose classification call answers plain
text, so routing lands on `trivial`. -/
def envLlmChat : EndpointEnv :=
  { envLlmFails with llmRoute := fun _ => .ok "Hello there!" }

/-- An endpoint environment whose classification call answers
`"[FORECAST]"`, so routing lands on the forecasting agent. -/
def envLlmForecast : EndpointEnv :=
  { envLlmFails with llmRoute := fun _ => .ok "[FORECAST]" }

/-- A raw trade row with non-null unit data. -/
def sampleRow (d : ℤ) : TradeRow := { date := some d, quantity := some 1, price := some 2 }

/-- A raw frame that cleans to 8 valid rows (kilogram units). -/
def frame8 : RawFrame :=
  { rows := [sampleRow 0, sampleRow 1, sampleRow 2, sampleRow 3,
             sampleRow 4, sampleRow 5, sampleRow 6, sampleRow 7]
    hasDateCol := true, hasQuantityCol := true, hasPriceCol := true
    currencyFirst := some "KES", unitNameFirst := some "Kilograms",
    unitSymbolFirst := some "kg" }

/-- A raw frame that cleans to only 2 valid rows. -/
def frame2 : RawFrame :=
  { rows := [sampleRow 0, sampleRow 1]
    hasDateCol := true, hasQuantityCol := true, hasPriceCol := true
    currencyFirst := some "KES", unitNameFirst := some "Kilograms",
    unitSymbolFirst := some "kg" }

/-- An agent environment where everything up to model fitting succeeds
on an 8-row series, and an exception escapes the dual-metrics step. -/
def envModelFails : AgentEnv :=
  { prophet := prophetNone
    countryId := fun _ => .ok 1
    productId := fun _ => .ok 2
    tradeFrame := fun _ _ => some frame8
    webAnswer := fun _ _ _ => "narrative answer"
    ragContext := ""
    modelExc := true
    interp := .error () }

lemma rangeSum_eq_sum (n : ℕ) (f : ℕ → ℚ) :
    rangeSum n f = ∑ i ∈ Finset.range n, f i := by
  induction n with
  | zero => simp [rangeSum]
  | succ n ih => rw [rangeSum, ih, Finset.sum_range_succ]

lemma sum_range_id_q (n : ℕ) :
    (∑ i ∈ Finset.range n, (i : ℚ)) = n * (n - 1) / 2 := by
  induction n with
  | zero => simp
  | succ n ih => rw [Finset.sum_range_succ, ih]; push_cast; ring

lemma sum_range_sq_q (n : ℕ) :
    (∑ i ∈ Finset.range n, (i : ℚ) ^ 2) = n * (n - 1) * (2 * n - 1) / 6 := by
  induction n with
  | zero => simp
  | succ n ih => rw [Finset.sum_range_succ, ih]; push_cast; ring

lemma sum_linear_resid (m : ℕ) (y : ℕ → ℚ) (S T : ℚ) :
    ∑ i ∈ Finset.range m, (y i - (S * i + T))
      = (∑ i ∈ Finset.range m, y i)
        - S * (∑ i ∈ Finset.range m, (i : ℚ)) - (m : ℚ) * T := by
  calc ∑ i ∈ Finset.range m, (y i - (S * i + T))
      = ∑ i ∈ Finset.range m, (y i - S * (i : ℚ) - T) :=
        Finset.sum_congr rfl fun i _ => by ring
    _ = _ := by
        rw [Finset.sum_sub_distrib, Finset.sum_sub_distrib, ← Finset.mul_sum]
        simp [Finset.sum_const, Finset.card_range]
        try ring

lemma sum_linear_resid_x (m : ℕ) (y : ℕ → ℚ) (S T : ℚ) :
    ∑ i ∈ Finset.range m, (i : ℚ) * (y i - (S * i + T))
      = (∑ i ∈ Finset.range m, (i : ℚ) * y i)
        - S * (∑ i ∈ Finset.range m, (i : ℚ) ^ 2)
        - T * (∑ i ∈ Finset.range m, (i : ℚ)) := by
  calc ∑ i ∈ Finset.range m, (i : ℚ) * (y i - (S * i + T))
      = ∑ i ∈ Finset.range m, ((i : ℚ) * y i - S * (i : ℚ) ^ 2 - T * (i : ℚ)) :=
        Finset.sum_congr rfl fun i _ => by ring
    _ = _ := by
        rw [Finset.sum_sub_distrib, Finset.sum_sub_distrib, ← Finset.mul_sum, ← Finset.mul_sum]

/-- The determinant of the normal equations for `x = 0..m-1` in closed
form. -/
lemma lsq_det_eq (m : ℕ) :
    (m : ℚ) * (∑ i ∈ Finset.range m, (i : ℚ) ^ 2)
      - (∑ i ∈ Finset.range m, (i : ℚ)) ^ 2
      = (m : ℚ) ^ 2 * ((m : ℚ) ^ 2 - 1) / 12 := by
  rw [sum_range_id_q, sum_range_sq_q]; ring

lemma lsq_det_ne (m : ℕ) (hm : 2 ≤ m) :
    (m : ℚ) * (∑ i ∈ Finset.range m, (i : ℚ) ^ 2)
      - (∑ i ∈ Finset.range m, (i : ℚ)) ^ 2 ≠ 0 := by
  have h2 : (2 : ℚ) ≤ (m : ℚ) := by exact_mod_cast hm
  rw [lsq_det_eq]
  have h4 : (4 : ℚ) ≤ (m : ℚ) ^ 2 := by nlinarith
  have hpos : (0 : ℚ) < (m : ℚ) ^ 2 * ((m : ℚ) ^ 2 - 1) := by nlinarith
  have : (0 : ℚ) < (m : ℚ) ^ 2 * ((m : ℚ) ^ 2 - 1) / 12 := by linarith
  exact ne_of_gt this

/-- First normal equation: the fitted residuals sum to zero. -/
lemma fit_resid_sum (m : ℕ) (hm : 2 ≤ m) (y : ℕ → ℚ) :
    ∑ i ∈ Finset.range m, (y i - (fitSlope m y * i + fitIntercept m y)) = 0 := by
  have hm0 : (m : ℚ) ≠ 0 := by
    have : (0 : ℚ) < m := by exact_mod_cast Nat.lt_of_lt_of_le (by norm_num) hm
    exact ne_of_gt this
  rw [sum_linear_resid, fitIntercept]
  field_simp

/-- Second normal equation: the index-weighted residuals sum to zero. -/
lemma fit_resid_sum_x (m : ℕ) (hm : 2 ≤ m) (y : ℕ → ℚ) :
    ∑ i ∈ Finset.range m, (i : ℚ) * (y i - (fitSlope m y * i + fitIntercept m y)) = 0 := by
  have hm0 : (m : ℚ) ≠ 0 := by
    have : (0 : ℚ) < m := by exact_mod_cast Nat.lt_of_lt_of_le (by norm_num) hm
    exact ne_of_gt this
  have hdne := lsq_det_ne m hm
  rw [sum_linear_resid_x, fitIntercept, fitSlope]
  field_simp
  ring

/-- Any parameters satisfying the two normal equations minimize the
residual sum of squares. -/
lemma sseF_min_of_normal (m : ℕ) (y : ℕ → ℚ) (s t : ℚ)
    (h1 : ∑ i ∈ Finset.range m, (y i - (s * i + t)) = 0)
    (h2 : ∑ i ∈ Finset.range m, (i : ℚ) * (y i - (s * i + t)) = 0)
    (a b : ℚ) : sseF m y s t ≤ sseF m y a b := by
  have key : sseF m y a b
      = sseF m y s t + ∑ i ∈ Finset.range m, ((s - a) * i + (t - b)) ^ 2 := by
    calc sseF m y a b
        = ∑ i ∈ Finset.range m, (y i - (a * i + b)) ^ 2 := rfl
      _ = ∑ i ∈ Finset.range m,
            ((y i - (s * i + t)) ^ 2
              + (2 * (s - a)) * ((i : ℚ) * (y i - (s * i + t)))
              + (2 * (t - b)) * (y i - (s * i + t))
              + ((s - a) * i + (t - b)) ^ 2) :=
          Finset.sum_congr rfl fun i _ => by ring
      _ = sseF m y s t + ∑ i ∈ Finset.range m, ((s - a) * i + (t - b)) ^ 2 := by
          rw [Finset.sum_add_distrib, Finset.sum_add_distrib, Finset.sum_add_distrib,
            ← Finset.mul_sum, ← Finset.mul_sum, h1, h2]
          simp [sseF]
  rw [key]
  have hnn : 0 ≤ ∑ i ∈ Finset.range m, ((s - a) * i + (t - b)) ^ 2 :=
    Finset.sum_nonneg fun i _ => sq_nonneg _
  linarith

lemma polyfitDeg1_eq (ys : List ℚ) :
    polyfitDeg1 ys
      = (fitSlope ys.length fun i => ys.getD i 0,
         fitIntercept ys.length fun i => ys.getD i 0) := by
  simp [polyfitDeg1, fitSlope, fitIntercept, rangeSum_eq_sum]

lemma sse_eq_sseF (ys : List ℚ) (a b : ℚ) :
    sse ys a b = sseF ys.length (fun i => ys.getD i 0) a b := by
  simp [sse, sseF, rangeSum_eq_sum]

/-- The closed-form coefficients computed by the fallback are the global
least-squares minimizer over all lines. -/
lemma polyfit_is_least_squares (ys : List ℚ) (hn : 2 ≤ ys.length) (a b : ℚ) :
    sse ys (polyfitDeg1 ys).1 (polyfitDeg1 ys).2 ≤ sse ys a b := by
  rw [sse_eq_sseF, sse_eq_sseF, polyfitDeg1_eq]
  exact sseF_min_of_normal ys.length (fun i => ys.getD i 0) _ _
    (fit_resid_sum ys.length hn _) (fit_resid_sum_x ys.length hn _) a b

/-! ### Structural lemmas about `run_model` -/

lemma run_model_fallback_eq (prophet : List (ℤ × ℚ) → ℕ → Option (ℕ → ℚ × ℚ × ℚ))
    (df : List (ℤ × ℚ)) (periods : ℕ)
    (h : df.length < 4 ∨ prophet df periods = none) :
    run_model prophet df periods = linear_fallback (df.map Prod.snd) periods := by
  unfold run_model
  rcases h with h | h
  · simp [h]
  · rcases Nat.lt_or_ge df.length 4 with h4 | h4
    · simp [h4]
    · simp [Nat.not_lt.mpr h4, h]

lemma linear_fallback_values_length (ys : List ℚ) (periods : ℕ) :
    (linear_fallback ys periods).values.length = periods := by
  unfold linear_fallback
  by_cases h : ys.length < 2 <;> simp [h]

lemma linear_fallback_intervals (ys : List ℚ) (periods : ℕ) :
    (linear_fallback ys periods).intervals.lower
        = (linear_fallback ys periods).values.map (· * (9/10)) ∧
      (linear_fallback ys periods).intervals.upper
        = (linear_fallback ys periods).values.map (· * (11/10)) ∧
      (linear_fallback ys periods).intervals.mean
        = (linear_fallback ys periods).values := by
  unfold linear_fallback
  exact ⟨rfl, rfl, rfl⟩

lemma tailN_length (l : List ℚ) (k : ℕ) (h : k ≤ l.length) :
    (tailN l k).length = k := by
  simp [tailN, List.length_drop]
  omega

lemma run_model_values_length (prophet : List (ℤ × ℚ) → ℕ → Option (ℕ → ℚ × ℚ × ℚ))
    (df : List (ℤ × ℚ)) (periods : ℕ) :
    (run_model prophet df periods).values.length = periods := by
  unfold run_model
  rcases Nat.lt_or_ge df.length 4 with h4 | h4
  · simp [h4, linear_fallback_values_length]
  · cases hp : prophet df periods with
    | none => simp [Nat.not_lt.mpr h4, hp, linear_fallback_values_length]
    | some f =>
      simp only [Nat.not_lt.mpr h4, if_false]
      simp [hp, tailN_length, List.length_map, List.length_range]

lemma run_model_interval_lengths (prophet : List (ℤ × ℚ) → ℕ → Option (ℕ → ℚ × ℚ × ℚ))
    (df : List (ℤ × ℚ)) (periods : ℕ) :
    (run_model prophet df periods).intervals.lower.length = periods ∧
      (run_model prophet df periods).intervals.upper.length = periods ∧
      (run_model prophet df periods).intervals.mean.length = periods := by
  unfold run_model
  rcases Nat.lt_or_ge df.length 4 with h4 | h4
  · have h := linear_fallback_intervals (df.map Prod.snd) periods
    have hv := linear_fallback_values_length (df.map Prod.snd) periods
    simp only [h4, if_true]
    refine ⟨?_, ?_, ?_⟩ <;>
      simp [h.1, h.2.1, h.2.2, hv]
  · cases hp : prophet df periods with
    | none =>
      have h := linear_fallback_intervals (df.map Prod.snd) periods
      have hv := linear_fallback_values_length (df.map Prod.snd) periods
      simp only [Nat.not_lt.mpr h4, if_false, hp]
      refine ⟨?_, ?_, ?_⟩ <;>
        simp [h.1, h.2.1, h.2.2, hv]
    | some f =>
      simp only [Nat.not_lt.mpr h4, if_false, hp]
      refine ⟨?_, ?_, ?_⟩ <;>
        (rw [tailN_length]; simp [List.length_map, List.length_range])

lemma linear_fallback_values_lt2 (ys : List ℚ) (periods : ℕ) (h : ys.length < 2) :
    (linear_fallback ys periods).values = List.replicate periods (ys.getLast?.getD 0) := by
  unfold linear_fallback
  simp [h]

lemma linear_fallback_values_ge2 (ys : List ℚ) (periods : ℕ) (h : 2 ≤ ys.length) :
    (linear_fallback ys periods).values
      = (List.range periods).map
          (fun k => (polyfitDeg1 ys).1 * ((ys.length + k : ℕ) : ℚ) + (polyfitDeg1 ys).2) := by
  unfold linear_fallback
  simp [Nat.not_lt.mpr h]

lemma getD_map_of_lt (l : List ℚ) (f : ℚ → ℚ) (i : ℕ) (h : i < l.length) :
    (l.map f).getD i 0 = f (l.getD i 0) := by
  rw [List.getD_eq_getElem?_getD, List.getD_eq_getElem?_getD, List.getElem?_map,
    List.getElem?_eq_getElem h]
  simp

/-- C1: whenever the primary seasonal-model strategy fails or fewer than
4 input points are supplied, `run_model` returns (without raising) the
linear-fallback tag, forecast values from the least-squares first-degree
polynomial over indices `0..n-1` extrapolated to `n..n+periods-1` (a
constant array equal to the last observed value when fewer than 2 points
exist, 0 when none exist, via `getLast?.getD 0`), and the synthetic
interval `lower = forecast × 0.9`, `upper = forecast × 1.1`. -/
theorem run_model_linear_fallback_contract
    (prophet : List (ℤ × ℚ) → ℕ → Option (ℕ → ℚ × ℚ × ℚ))
    (df : List (ℤ × ℚ)) (periods : ℕ)
    (hfail : df.length < 4 ∨ prophet df periods = none) :
    (run_model prophet df periods).modelType = "linear_fallback" ∧
    (run_model prophet df periods).intervals.lower
      = (run_model prophet df periods).values.map (· * (9/10)) ∧
    (run_model prophet df periods).intervals.upper
      = (run_model prophet df periods).values.map (· * (11/10)) ∧
    (run_model prophet df periods).intervals.mean
      = (run_model prophet df periods).values ∧
    (df.length < 2 →
      (run_model prophet df periods).values
        = List.replicate periods ((df.map Prod.snd).getLast?.getD 0)) ∧
    (2 ≤ df.length →
      (run_model prophet df periods).values
        = (List.range periods).map
            (fun k => (polyfitDeg1 (df.map Prod.snd)).1 * ((df.length + k : ℕ) : ℚ)
              + (polyfitDeg1 (df.map Prod.snd)).2) ∧
      ∀ a b : ℚ,
        sse (df.map Prod.snd) (polyfitDeg1 (df.map Prod.snd)).1
            (polyfitDeg1 (df.map Prod.snd)).2
          ≤ sse (df.map Prod.snd) a b) := by
  have he := run_model_fallback_eq prophet df periods hfail
  have hlen : (df.map Prod.snd).length = df.length := List.length_map df Prod.snd
  refine ⟨?_, ?_, ?_, ?_, ?_, ?_⟩
  · rw [he]; rfl
  · rw [he]; exact (linear_fallback_intervals _ _).1
  · rw [he]; exact (linear_fallback_intervals _ _).2.1
  · rw [he]; exact (linear_fallback_intervals _ _).2.2
  · intro h2
    rw [he, linear_fallback_values_lt2 _ _ (by omega)]
  · intro h2
    refine ⟨?_, fun a b => polyfit_is_least_squares (df.map Prod.snd) (by omega) a b⟩
    rw [he, linear_fallback_values_ge2 _ _ (by omega), hlen]

/-- Witness for C1 at a one-point frame with a failing model fit. -/
theorem run_model_linear_fallback_contract_witness :
    (run_model prophetNone [((0 : ℤ), (5 : ℚ))] 3).modelType = "linear_fallback" :=
  (run_model_linear_fallback_contract prophetNone [((0 : ℤ), (5 : ℚ))] 3
    (Or.inl (by decide))).1

/-- C5: under either strategy the forecast-value array and each interval
array have length exactly `periods`; when the primary strategy succeeds
the method tag is the seasonal-model tag `"prophet"`. -/
theorem run_model_length_invariant
    (prophet : List (ℤ × ℚ) → ℕ → Option (ℕ → ℚ × ℚ × ℚ))
    (df : List (ℤ × ℚ)) (periods : ℕ) :
    (run_model prophet df periods).values.length = periods ∧
    (run_model prophet df periods).intervals.lower.length = periods ∧
    (run_model prophet df periods).intervals.upper.length = periods ∧
    (run_model prophet df periods).intervals.mean.length = periods ∧
    (∀ f, 4 ≤ df.length → prophet df periods = some f →
      (run_model prophet df periods).modelType = "prophet") := by
  refine ⟨run_model_values_length _ _ _, (run_model_interval_lengths _ _ _).1,
    (run_model_interval_lengths _ _ _).2.1, (run_model_interval_lengths _ _ _).2.2, ?_⟩
  intro f h4 hp
  unfold run_model
  simp [Nat.not_lt.mpr h4, hp]

/-- Witness for C5 at a four-point frame with a succeeding model fit. -/
theorem run_model_length_invariant_witness :
    (run_model prophetConst [((0 : ℤ), (1 : ℚ)), (1, 2), (2, 3), (3, 4)] 5).modelType
      = "prophet" :=
  (run_model_length_invariant prophetConst [((0 : ℤ), (1 : ℚ)), (1, 2), (2, 3), (3, 4)] 5).2.2.2.2
    (fun _ => ((1 : ℚ), (0 : ℚ), (2 : ℚ))) (by decide) rfl

/-- C10: on the linear-fallback path the interval brackets the mean at
index `i` exactly when the i-th forecast value is nonnegative, and a
negative forecast value makes the lower bound strictly exceed the upper
bound (the bounds are the fixed multiples 0.9 and 1.1 of the value). -/
theorem run_model_fallback_interval_iff
    (prophet : List (ℤ × ℚ) → ℕ → Option (ℕ → ℚ × ℚ × ℚ))
    (df : List (ℤ × ℚ)) (periods : ℕ)
    (hfail : df.length < 4 ∨ prophet df periods = none)
    (i : ℕ) (hi : i < periods) :
    (((run_model prophet df periods).intervals.lower.getD i 0
        ≤ (run_model prophet df periods).intervals.mean.getD i 0 ∧
      (run_model prophet df periods).intervals.mean.getD i 0
        ≤ (run_model prophet df periods).intervals.upper.getD i 0)
      ↔ 0 ≤ (run_model prophet df periods).values.getD i 0) ∧
    ((run_model prophet df periods).values.getD i 0 < 0 →
      (run_model prophet df periods).intervals.upper.getD i 0
        < (run_model prophet df periods).intervals.lower.getD i 0) := by
  have he := run_model_fallback_eq prophet df periods hfail
  have hints := linear_fallback_intervals (df.map Prod.snd) periods
  have hvl := linear_fallback_values_length (df.map Prod.snd) periods
  rw [he]
  rw [hints.1, hints.2.1, hints.2.2]
  have hilt : i < (linear_fallback (df.map Prod.snd) periods).values.length := by
    rw [hvl]; exact hi
  rw [getD_map_of_lt _ _ _ hilt, getD_map_of_lt _ _ _ hilt]
  constructor
  · constructor
    · rintro ⟨h1, h2⟩
      linarith
    · intro h
      constructor <;> linarith
  · intro h
    linarith

/-- C2: the kg-multiplier / display-unit pair is a pure function of the
unit-name/unit-symbol pair, equal to the spec's ordered case-insensitive
policy, with the four quoted evaluations. -/
theorem unit_conversion_matches_policy (unit_name unit_symbol : String) :
    unit_conversion unit_name unit_symbol = unitPolicySpec unit_name unit_symbol ∧
    unit_conversion "Metric Tons" "t" = (1000, "tonnes") ∧
    unit_conversion "Kilograms" "kg" = (1, "kg") ∧
    unit_conversion "Quintal" "q" = (100, "quintals") ∧
    unit_conversion "" "" = (1000, "tonnes") :=
  ⟨rfl, by decide, by decide, by decide, by decide⟩

lemma insertByDs_length (r : CleanRow) (l : List CleanRow) :
    (insertByDs r l).length = l.length + 1 := by
  induction l with
  | nil => rfl
  | cons x xs ih =>
    unfold insertByDs
    by_cases h : r.ds < x.ds <;> simp [h, ih]

lemma sortByDs_length (l : List CleanRow) : (sortByDs l).length = l.length := by
  induction l with
  | nil => rfl
  | cons x xs ih =>
    show (insertByDs x (sortByDs xs)).length = xs.length + 1
    rw [insertByDs_length, ih]

lemma prepare_ok_cases (df : RawFrame) (out : Prepared)
    (h : prepare_dual_data df = Except.ok out) :
    out.rows = cleanedSeries df ∧ 8 ≤ (cleanedSeries df).length := by
  simp only [prepare_dual_data] at h
  split_ifs at h with h1 h2 h3 h4 <;> cases h
  exact ⟨rfl, by omega⟩

lemma prepare_insufficient (df : RawFrame)
    (h1 : df.rows.isEmpty = false) (h2 : df.hasDateCol = true)
    (h3 : df.hasQuantityCol = true) (h4 : df.hasPriceCol = true)
    (hlt : (cleanedSeries df).length < 8) :
    prepare_dual_data df
      = Except.error (PrepError.insufficientData (cleanedSeries df).length) := by
  simp [prepare_dual_data, h1, h2, h3, h4, hlt]

/-- C3: a cleaned series with fewer than 8 rows makes the preparer fail
(with the insufficient-data error when the schema checks passed), and
it never returns a series; every successfully returned series has at
least 8 rows. -/
theorem prepare_min_rows (df : RawFrame) :
    (∀ out, prepare_dual_data df = Except.ok out →
      8 ≤ out.rows.length ∧ out.rows = cleanedSeries df) ∧
    ((cleanedSeries df).length < 8 →
      ∀ out, ¬ (prepare_dual_data df = Except.ok out)) ∧
    (df.rows.isEmpty = false → df.hasDateCol = true →
      df.hasQuantityCol = true → df.hasPriceCol = true →
      (cleanedSeries df).length < 8 →
      prepare_dual_data df
        = Except.error (PrepError.insufficientData (cleanedSeries df).length)) := by
  refine ⟨?_, ?_, prepare_insufficient df⟩
  · intro out h
    have hc := prepare_ok_cases df out h
    exact ⟨by rw [hc.1]; exact hc.2, hc.1⟩
  · intro hlt out h
    have hc := prepare_ok_cases df out h
    omega

/-- Witness for C3 at a frame whose cleaned series has 2 rows. -/
theorem prepare_min_rows_witness :
    prepare_dual_data frame2
      = Except.error (PrepError.insufficientData (cleanedSeries frame2).length) :=
  (prepare_min_rows frame2).2.2 (by decide) (by decide) (by decide) (by decide)
    (by simp +decide [cleanedSeries, frame2, sampleRow, cleanRows, sortByDs,
      insertByDs, unit_conversion])

/-- C4 counterexample: the orchestrator does not use the integer from
the query's `next N (month|months|year|years)` phrase.  For a processed
query asking for the next 2 years, the claimed extraction
(`parse_timeframe` on the phrase) yields 24, but the orchestrator's
period count is 12, because it parses a synthesized timeframe string
("next 1 year" whenever the query does not contain "month"). -/
theorem periods_from_query_counterexample :
    parse_timeframe "next 2 years" = 24 ∧
    periodsForQuery "forecast the coffee price in kenya for the next 2 years" = 12 ∧
    (12 : ℕ) ≠ 24 :=
  ⟨by decide, by decide, by decide⟩

/-- C4 amended: every processed query yields 3 monthly periods when it
contains "month" and 12 otherwise; `parse_timeframe` itself implements
the claimed `next N (month|months|year|years)` extraction with default
3 ("next 2 years" → 24, "next 3 months" → 3, "tomorrow" → 3), but the
orchestrator only ever applies it to the two synthesized timeframe
strings. -/
theorem periods_for_query_characterization (query : String) :
    periodsForQuery query = (if pyIn "month" (pyLower query) then 3 else 12) ∧
    parse_timeframe "next 2 years" = 24 ∧
    parse_timeframe "next 3 months" = 3 ∧
    parse_timeframe "tomorrow" = 3 := by
  refine ⟨?_, by decide, by decide, by decide⟩
  unfold periodsForQuery
  by_cases h : pyIn "month" (pyLower query) = true
  · simp only [h, if_true]
    decide
  · simp only [Bool.not_eq_true] at h
    simp only [h, Bool.false_eq_true, if_false]
    decide

/-- Witness for C10 at a one-point frame with a failing model fit. -/
theorem run_model_fallback_interval_iff_witness :
    (((run_model prophetNone [((0 : ℤ), (5 : ℚ))] 3).intervals.lower.getD 0 0
        ≤ (run_model prophetNone [((0 : ℤ), (5 : ℚ))] 3).intervals.mean.getD 0 0 ∧
      (run_model prophetNone [((0 : ℤ), (5 : ℚ))] 3).intervals.mean.getD 0 0
        ≤ (run_model prophetNone [((0 : ℤ), (5 : ℚ))] 3).intervals.upper.getD 0 0)
      ↔ 0 ≤ (run_model prophetNone [((0 : ℤ), (5 : ℚ))] 3).values.getD 0 0) :=
  (run_model_fallback_interval_iff prophetNone [((0 : ℤ), (5 : ℚ))] 3
    (Or.inl (by decide)) 0 (by decide)).1

/-! ### Router and endpoint theorems -/

lemma route_and_reason_pattern (llm1 llm2 : String → Except Unit String) (uq : String)
    (hpat : is_ethiopia_coffee_forecast_query uq = true ∨
            is_kenya_coffee_forecast_query uq = true ∨
            is_kenya_maize_forecast_query uq = true) :
    route_and_reason llm1 uq = route_and_reason llm2 uq := by
  unfold route_and_reason
  by_cases h1 : is_ethiopia_coffee_forecast_query uq = true
  · simp [h1]
  · rw [Bool.not_eq_true] at h1
    by_cases h2 : is_kenya_coffee_forecast_query uq = true
    · simp [h1, h2]
    · rw [Bool.not_eq_true] at h2
      have h3 : is_kenya_maize_forecast_query uq = true := by
        rcases hpat with h | h | h
        · rw [h] at h1; cases h1
        · rw [h] at h2; cases h2
        · exact h
      simp [h1, h2, h3]

lemma queryEndpoint_pattern (env : EndpointEnv) (rawQuery rawFile : String)
    (hpat : is_ethiopia_coffee_forecast_query (pyStrip rawQuery) = true ∨
            is_kenya_coffee_forecast_query (pyStrip rawQuery) = true ∨
            is_kenya_maize_forecast_query (pyStrip rawQuery) = true) :
    queryEndpoint env rawQuery rawFile
      = (if is_ethiopia_coffee_forecast_query (pyStrip rawQuery) then
           EndpointResult.canned CannedId.ethiopiaCoffee
         else if is_kenya_coffee_forecast_query (pyStrip rawQuery) then
           EndpointResult.canned CannedId.kenyaCoffee
         else EndpointResult.canned CannedId.kenyaMaize) := by
  have hne : ¬ (pyStrip rawQuery = "") := by
    intro he
    rw [he] at hpat
    rcases hpat with h | h | h <;> revert h <;> decide
  unfold queryEndpoint
  rw [if_neg (fun hc => hne hc.1)]
  by_cases h1 : is_ethiopia_coffee_forecast_query (pyStrip rawQuery) = true
  · simp [h1]
  · rw [Bool.not_eq_true] at h1
    by_cases h2 : is_kenya_coffee_forecast_query (pyStrip rawQuery) = true
    · simp [h1, h2]
    · rw [Bool.not_eq_true] at h2
      have h3 : is_kenya_maize_forecast_query (pyStrip rawQuery) = true := by
        rcases hpat with h | h | h
        · rw [h] at h1; cases h1
        · rw [h] at h2; cases h2
        · exact h
      simp [h1, h2, h3]

/-- C6: a query matching one of the three hardcoded pattern shortcuts is
answered with the corresponding pre-authored canned forecast payload,
decided before any call to the text-generation service: for any two
endpoint environments (so in particular any two behaviours of that
service, including failure) the result is identical, and the router's
decision is likewise service-independent. -/
theorem hardcoded_shortcut_priority
    (envA envB : EndpointEnv) (rawQuery rawFile : String)
    (hpat : is_ethiopia_coffee_forecast_query (pyStrip rawQuery) = true ∨
            is_kenya_coffee_forecast_query (pyStrip rawQuery) = true ∨
            is_kenya_maize_forecast_query (pyStrip rawQuery) = true) :
    queryEndpoint envA rawQuery rawFile = queryEndpoint envB rawQuery rawFile ∧
    queryEndpoint envA rawQuery rawFile
      = (if is_ethiopia_coffee_forecast_query (pyStrip rawQuery) then
           EndpointResult.canned CannedId.ethiopiaCoffee
         else if is_kenya_coffee_forecast_query (pyStrip rawQuery) then
           EndpointResult.canned CannedId.kenyaCoffee
         else EndpointResult.canned CannedId.kenyaMaize) ∧
    (∀ llm1 llm2 : String → Except Unit String,
      route_and_reason llm1 (pyStrip rawQuery) = route_and_reason llm2 (pyStrip rawQuery)) := by
  have hA := queryEndpoint_pattern envA rawQuery rawFile hpat
  have hB := queryEndpoint_pattern envB rawQuery rawFile hpat
  exact ⟨hA.trans hB.symm, hA, fun llm1 llm2 => route_and_reason_pattern llm1 llm2 _ hpat⟩

/-- Witness for C6: the same Kenya-maize query gets the same result
whether the classification service raises or answers "[RAG]". -/
theorem hardcoded_shortcut_priority_witness :
    queryEndpoint envLlmFails "forecast kenya maize price next year" ""
      = queryEndpoint envLlmRag "forecast kenya maize price next year" "" :=
  (hardcoded_shortcut_priority envLlmFails envLlmRag
    "forecast kenya maize price next year" "" (Or.inr (Or.inr (by decide)))).1

/-- C7: when the classification service call fails and no hardcoded
pattern matches, the router returns `trivial` with the fixed greeting
exactly when the query has at most 6 whitespace-delimited tokens and
contains no domain keyword, and returns `rag` in every other failure
case; it returns a decision either way (no exception). -/
theorem keyword_degradation_on_service_failure
    (llm : String → Except Unit String) (user_query : String)
    (hfail : llm user_query = .error ())
    (h1 : is_ethiopia_coffee_forecast_query user_query = false)
    (h2 : is_kenya_coffee_forecast_query user_query = false)
    (h3 : is_kenya_maize_forecast_query user_query = false) :
    (route_and_reason llm user_query = ⟨.trivial, greeting⟩ ↔
      (wordCount (pyLower user_query) ≤ 6 ∧
        ∀ kw ∈ trade_keywords, pyIn kw (pyLower user_query) = false)) ∧
    (route_and_reason llm user_query = ⟨.trivial, greeting⟩ ∨
      route_and_reason llm user_query = ⟨.rag, ""⟩) := by
  have hro : route_and_reason llm user_query = keyword_degradation user_query := by
    unfold route_and_reason
    simp [h1, h2, h3, hfail]
  rw [hro]
  unfold keyword_degradation
  by_cases hc : wordCount (pyLower user_query) ≤ 6 ∧
      trade_keywords.all (fun kw => !(pyIn kw (pyLower user_query))) = true
  · rw [if_pos hc]
    refine ⟨⟨fun _ => ⟨hc.1, fun kw hkw => ?_⟩, fun _ => rfl⟩, Or.inl rfl⟩
    have := List.all_eq_true.mp hc.2 kw hkw
    simpa using this
  · rw [if_neg hc]
    refine ⟨⟨fun habs => absurd habs (by decide), fun hcond => ?_⟩, Or.inr rfl⟩
    exfalso
    exact hc ⟨hcond.1,
      List.all_eq_true.mpr fun kw hkw => by simpa using hcond.2 kw hkw⟩

/-- Witness for C7: the two quoted scenarios, with a failing service. -/
theorem keyword_degradation_on_service_failure_witness :
    route_and_reason (fun _ => .error ()) "hi" = ⟨.trivial, greeting⟩ ∧
    route_and_reason (fun _ => .error ())
        "what about the maize export tariff policy for Kenya" = ⟨.rag, ""⟩ := by
  constructor
  · exact (keyword_degradation_on_service_failure (fun _ => .error ()) "hi" rfl
      (by decide) (by decide) (by decide)).1.mpr (by decide)
  · have h := keyword_degradation_on_service_failure (fun _ => .error ())
      "what about the maize export tariff policy for Kenya" rfl
      (by decide) (by decide) (by decide)
    rcases h.2 with hcase | hcase
    · exfalso
      have hm := (h.1.mp hcase).2 "maize" (by decide)
      revert hm
      decide
    · exact hcase

/-! ### Orchestrator deferral theorems -/

lemma webFallbackOutput_fields (q a : String) (dp : ℕ) :
    (webFallbackOutput q a dp).source = some "web_fallback" ∧
    (webFallbackOutput q a dp).confidence_level = some "Medium" ∧
    (webFallbackOutput q a dp).data_points_used = some dp :=
  ⟨rfl, rfl, rfl⟩

lemma forecastingAgentRun_cases (env : AgentEnv) (query fc : String) :
    (forecastingAgentRun env query fc).source = none ∨
    (∃ a, forecastingAgentRun env query fc = webFallbackOutput query a 0) ∨
    (∃ a frame d, prepare_dual_data frame = Except.ok d ∧ env.modelExc = true ∧
      forecastingAgentRun env query fc = webFallbackOutput query a d.rows.length) := by
  unfold forecastingAgentRun
  by_cases hq : query = ""
  · left; simp [hq]
  · rw [if_neg hq]
    cases hF : aliasMap.find? (fun kv => pyIn kv.1 (pyLower query)) with
    | none =>
      cases hC : supportedCountries.find? (fun c => pyIn c (pyLower query)) with
      | none => dsimp only; exact Or.inr (Or.inl ⟨_, rfl⟩)
      | some co => dsimp only; exact Or.inr (Or.inl ⟨_, rfl⟩)
    | some kv =>
      cases hC : supportedCountries.find? (fun c => pyIn c (pyLower query)) with
      | none => dsimp only; exact Or.inr (Or.inl ⟨_, rfl⟩)
      | some co =>
        dsimp only
        cases hcid : env.countryId (pyTitle co) with
        | error e => dsimp only; exact Or.inr (Or.inl ⟨_, rfl⟩)
        | ok cid =>
          cases hpid : env.productId kv.2 with
          | error e => dsimp only; exact Or.inr (Or.inl ⟨_, rfl⟩)
          | ok pid =>
            dsimp only
            cases hTF : env.tradeFrame cid pid with
            | none => dsimp only; exact Or.inr (Or.inl ⟨_, rfl⟩)
            | some frame =>
              dsimp only
              cases hprep : prepare_dual_data frame with
              | error e => dsimp only; exact Or.inr (Or.inl ⟨_, rfl⟩)
              | ok d =>
                dsimp only
                by_cases hM : env.modelExc = true
                · rw [if_pos hM]
                  exact Or.inr (Or.inr ⟨_, frame, d, hprep, hM, rfl⟩)
                · rw [Bool.not_eq_true] at hM
                  rw [if_neg (by rw [hM]; exact Bool.false_ne_true)]
                  left
                  rfl

/-- C8 amended: every DEFERRED (web-fallback) outcome of the
orchestrator carries `confidence_level = "Medium"`, but
`data_points_used = 0` only on the commodity/country-resolution,
identifier-lookup and data-preparation deferrals; the model-failure
deferral carries the prepared series length, which is at least 8. -/
theorem deferred_outcome_fields (env : AgentEnv) (query fc : String)
    (hdef : (forecastingAgentRun env query fc).source = some "web_fallback") :
    (forecastingAgentRun env query fc).confidence_level = some "Medium" ∧
    (env.modelExc = false →
      (forecastingAgentRun env query fc).data_points_used = some 0) ∧
    (∀ n, (forecastingAgentRun env query fc).data_points_used = some n →
      n = 0 ∨ (env.modelExc = true ∧ 8 ≤ n)) := by
  rcases forecastingAgentRun_cases env query fc with h | ⟨a, h⟩ | ⟨a, frame, d, hprep, hM, h⟩
  · rw [h] at hdef; cases hdef
  · rw [h]
    exact ⟨rfl, fun _ => rfl, fun n hn => Or.inl (by cases hn; rfl)⟩
  · rw [h]
    have h8 := (prepare_ok_cases frame d hprep).2
    have hlen : d.rows = cleanedSeries frame := (prepare_ok_cases frame d hprep).1
    refine ⟨rfl, fun hfalse => ?_, fun n hn => ?_⟩
    · rw [hM] at hfalse; cases hfalse
    · right
      refine ⟨hM, ?_⟩
      have : n = d.rows.length := by cases hn; rfl
      rw [this, hlen]
      exact h8

/-- Witness for C8 amended, at the model-failure deferral. -/
theorem deferred_outcome_fields_witness :
    (forecastingAgentRun envModelFails "forecast maize exports from kenya" "").confidence_level
      = some "Medium" :=
  (deferred_outcome_fields envModelFails "forecast maize exports from kenya" ""
    (by simp +decide [forecastingAgentRun, envModelFails, prepare_dual_data, cleanedSeries,
      frame8, sampleRow, cleanRows, sortByDs, insertByDs, unit_conversion,
      webFallbackOutput, aliasMap, supportedCountries])).1

/-- C8 counterexample: a model-failure deferral over an 8-row prepared
series is a web-fallback outcome whose `data_points_used` is 8, not 0. -/
theorem deferred_zero_counterexample :
    (forecastingAgentRun envModelFails "forecast maize exports from kenya" "").source
      = some "web_fallback" ∧
    (forecastingAgentRun envModelFails "forecast maize exports from kenya" "").confidence_level
      = some "Medium" ∧
    (forecastingAgentRun envModelFails "forecast maize exports from kenya" "").data_points_used
      = some 8 ∧
    (8 : ℕ) ≠ 0 := by
  refine ⟨?_, ?_, ?_, by decide⟩ <;>
    simp +decide [forecastingAgentRun, envModelFails, prepare_dual_data, cleanedSeries,
      frame8, sampleRow, cleanRows, sortByDs, insertByDs, unit_conversion,
      webFallbackOutput, aliasMap, supportedCountries]

/-! ### Normalizer (final_output) theorems -/

lemma optKey_mem {α : Type} (s name : String) (o : Option α) (h : s ∈ optKey name o) :
    s = name := by
  unfold optKey at h
  split at h
  · simpa using h
  · simp at h

lemma agentOutputKeys_no_final (r : AgentOutput) : "final_output" ∉ agentOutputKeys r := by
  intro h
  simp only [agentOutputKeys, List.mem_append] at h
  rcases h with ((((((((h | h) | h) | h) | h) | h) | h) | h) | h) <;>
    exact absurd (optKey_mem _ _ _ h) (by decide)

lemma compOutKeys_no_final (r : CompOut) : "final_output" ∉ compOutKeys r := by
  intro h
  simp only [compOutKeys, List.mem_append] at h
  rcases h with ((((h | h) | h) | h) | h) <;>
    exact absurd (optKey_mem _ _ _ h) (by decide)

lemma scenOutKeys_no_final (r : ScenOut) : "final_output" ∉ scenOutKeys r := by
  intro h
  simp only [scenOutKeys, List.mem_append] at h
  rcases h with (((((h | h) | h) | h) | h) | h) <;>
    exact absurd (optKey_mem _ _ _ h) (by decide)

lemma topLevelKeys_no_final (res : EndpointResult) : "final_output" ∉ topLevelKeys res := by
  intro h
  cases res with
  | badRequest => revert h; decide
  | canned id => cases id <;> (revert h; decide)
  | fileAnalysis a b => simp +decide [topLevelKeys] at h
  | trivialResponse a => simp +decide [topLevelKeys] at h
  | comparativeResult r => exact compOutKeys_no_final r h
  | forecastResult r =>
    rw [topLevelKeys, List.mem_dedup] at h
    rcases List.mem_cons.mp h with h | h
    · exact absurd h (by decide)
    · exact agentOutputKeys_no_final r h
  | scenarioResult r =>
    rw [topLevelKeys, List.mem_dedup] at h
    rcases List.mem_cons.mp h with h | h
    · exact absurd h (by decide)
    · exact scenOutKeys_no_final r h
  | ragResult a => simp +decide [topLevelKeys] at h

lemma queryEndpoint_forecast_inv (env : EndpointEnv) (rawQuery rawFile : String)
    (r : AgentOutput)
    (h : queryEndpoint env rawQuery rawFile = EndpointResult.forecastResult r) :
    r = forecastingAgentRun env.agent (pyStrip rawQuery) (pyStrip rawFile) := by
  unfold queryEndpoint at h
  split_ifs at h <;> try (cases h)
  split at h <;> cases h
  rfl

lemma queryEndpoint_comparative_inv (env : EndpointEnv) (rawQuery rawFile : String)
    (r : CompOut)
    (h : queryEndpoint env rawQuery rawFile = EndpointResult.comparativeResult r) :
    r = comparative_run env.compSynth (pyStrip rawQuery) (pyStrip rawFile) := by
  unfold queryEndpoint at h
  split_ifs at h <;> try (cases h)
  split at h <;> cases h
  rfl

lemma queryEndpoint_scenario_inv (env : EndpointEnv) (rawQuery rawFile : String)
    (r : ScenOut)
    (h : queryEndpoint env rawQuery rawFile = EndpointResult.scenarioResult r) :
    r = scenario_handle env.llmScen (pyStrip rawQuery) (pyStrip rawFile) := by
  unfold queryEndpoint at h
  split_ifs at h <;> try (cases h)
  split at h <;> cases h
  rfl

/-- C9 amended: the core never attaches a `final_output` field — every
result it returns to the caller lacks that key; handler results are
passed through unmodified (each handler constructor carries exactly the
handler's own output).  The lone `final_output` assignment in the
source (the apology in the endpoint's forecast `ValueError` branch) is
unreachable, because the forecasting agent catches every data
`ValueError` internally and returns a web-fallback dict instead of
raising. -/
theorem endpoint_no_final_output (env : EndpointEnv) (rawQuery rawFile : String) :
    "final_output" ∉ topLevelKeys (queryEndpoint env rawQuery rawFile) ∧
    (∀ r, queryEndpoint env rawQuery rawFile = EndpointResult.forecastResult r →
      r = forecastingAgentRun env.agent (pyStrip rawQuery) (pyStrip rawFile)) ∧
    (∀ r, queryEndpoint env rawQuery rawFile = EndpointResult.comparativeResult r →
      r = comparative_run env.compSynth (pyStrip rawQuery) (pyStrip rawFile)) ∧
    (∀ r, queryEndpoint env rawQuery rawFile = EndpointResult.scenarioResult r →
      r = scenario_handle env.llmScen (pyStrip rawQuery) (pyStrip rawFile)) :=
  ⟨topLevelKeys_no_final _,
   fun r => queryEndpoint_forecast_inv env rawQuery rawFile r,
   fun r => queryEndpoint_comparative_inv env rawQuery rawFile r,
   fun r => queryEndpoint_scenario_inv env rawQuery rawFile r⟩

/-- Witness for C9 amended: a forecast-routed query's endpoint result
carries the forecasting agent's own output (here its no-commodity
web-fallback dict) unmodified. -/
theorem endpoint_no_final_output_witness :
    webFallbackOutput "what will prices do" "narrative answer" 0
      = forecastingAgentRun envLlmForecast.agent (pyStrip "what will prices do") (pyStrip "") :=
  (endpoint_no_final_output envLlmForecast "what will prices do" "").2.1
    (webFallbackOutput "what will prices do" "narrative answer" 0)
    (by simp +decide [queryEndpoint, route_and_reason, envLlmForecast, envLlmFails,
      forecastingAgentRun, stubAgentEnv, webFallbackOutput, aliasMap, supportedCountries])

/-- C9 counterexample: a trivially-routed chat query is answered with a
dict whose keys are exactly `type` and `response`; it has no
`final_output` field at all, refuting the guaranteed non-empty
`final_output` contract. -/
theorem endpoint_final_output_counterexample :
    queryEndpoint envLlmChat "hello" "" = EndpointResult.trivialResponse "Hello there!" ∧
    topLevelKeys (queryEndpoint envLlmChat "hello" "") = ["type", "response"] ∧
    "final_output" ∉ topLevelKeys (queryEndpoint envLlmChat "hello" "") := by
  have h1 : queryEndpoint envLlmChat "hello" "" = EndpointResult.trivialResponse "Hello there!" := by
    simp +decide [queryEndpoint, route_and_reason, envLlmChat, envLlmFails]
  refine ⟨h1, ?_, ?_⟩
  · rw [h1]; rfl
  · rw [h1]; decide

end Zeno
